import Mathlib

/-!
Verification of the OpenID 2.0 relying-party engine (the `openid-2.0` Rust
repository) against its natural-language specification.

Strings are modelled as `List Char` where character-level reasoning is needed
(the wire codecs), and as Lean `String` elsewhere.  Machine integers are
modelled as `Int` (timestamps, `i64` milliseconds) and `Nat` with explicit
bounds (`u64` steam ids).  Fallible Rust functions returning
`anyhow::Result<T>` are modelled as `Except String T`, carrying the message of
the failing `bail!`/`context` site.
-/

namespace OpenId

/-! ## Comma-separated codec, `src/openid/comma_separated.rs` and
`src/openid/util/comma_separated.rs`

Rust `str::split(',')` over the characters of the input; splitting the empty
string yields one empty piece.  `Vec::join(",")` is `joinChar`. -/

/-- Rust `str::split(sep)` on a character list: every separator occurrence
starts a new piece; the empty input gives one empty piece. -/
def splitOnChar (sep : Char) : List Char → List (List Char)
  | [] => [[]]
  | c :: cs =>
    match splitOnChar sep cs with
    | [] => [[]]
    | h :: t => if c = sep then [] :: h :: t else (c :: h) :: t

/-- Rust `[T]::join(sep)` / the manual `write!` loop of the generic codec:
interleave the separator between the pieces. -/
def joinChar (sep : Char) : List (List Char) → List Char
  | [] => []
  | [x] => x
  | x :: xs => x ++ sep :: joinChar sep xs

/-- `CommaSeparated::from_str` of `src/openid/comma_separated.rs`: it simply
splits on commas and never fails (`Ok` is unconditional). -/
def CommaSeparated.fromStr (s : List Char) : List (List Char) :=
  splitOnChar ',' s

/-- `CommaSeparated::to_string` of `src/openid/comma_separated.rs`
(`self.0.join(",")`). -/
def CommaSeparated.toString (l : List (List Char)) : List Char :=
  joinChar ',' l

/-- `CommaSeparated::<String>::from_str` of
`src/openid/util/comma_separated.rs`: an empty input returns the empty list
before any splitting; `String`'s own parser never fails, so every piece is
kept. -/
def CommaSeparatedGen.fromStr (s : List Char) : List (List Char) :=
  if s = [] then [] else splitOnChar ',' s

/-- `CommaSeparated::<String>::to_string` of
`src/openid/util/comma_separated.rs`: first element verbatim, then `","`
before each further element. -/
def CommaSeparatedGen.toString (l : List (List Char)) : List Char :=
  joinChar ',' l

theorem splitOnChar_ne_nil (sep : Char) (s : List Char) :
    splitOnChar sep s ≠ [] := by
  cases s with
  | nil => simp [splitOnChar]
  | cons c cs =>
    simp only [splitOnChar]
    cases h : splitOnChar sep cs with
    | nil => simp
    | cons h t =>
      by_cases hc : c = sep <;> simp [hc]

theorem splitOnChar_no_sep (sep : Char) (x : List Char) (hx : sep ∉ x) :
    splitOnChar sep x = [x] := by
  induction x with
  | nil => rfl
  | cons c cs ih =>
    have hc : c ≠ sep := fun h => hx (h ▸ List.mem_cons_self c cs)
    have hcs : sep ∉ cs := fun h => hx (List.mem_cons_of_mem c h)
    simp [splitOnChar, ih hcs, hc]

theorem splitOnChar_append_sep (sep : Char) (x rest : List Char)
    (hx : sep ∉ x) :
    splitOnChar sep (x ++ sep :: rest) = x :: splitOnChar sep rest := by
  induction x with
  | nil =>
    show splitOnChar sep (sep :: rest) = _
    simp only [splitOnChar]
    cases hsp : splitOnChar sep rest with
    | nil => exact absurd hsp (splitOnChar_ne_nil sep _)
    | cons a b => simp
  | cons c cs ih =>
    have hc : c ≠ sep := fun h => hx (h ▸ List.mem_cons_self c cs)
    have hcs : sep ∉ cs := fun h => hx (List.mem_cons_of_mem c h)
    show splitOnChar sep (c :: (cs ++ sep :: rest)) = _
    simp only [splitOnChar, ih hcs]
    simp [hc]

/-- Round trip of split/join for nonempty lists of comma-free pieces. -/
theorem splitOnChar_joinChar (sep : Char) (l : List (List Char))
    (hne : l ≠ []) (hfree : ∀ x ∈ l, sep ∉ x) :
    splitOnChar sep (joinChar sep l) = l := by
  induction l with
  | nil => exact absurd rfl hne
  | cons x xs ih =>
    cases xs with
    | nil =>
      simp only [joinChar]
      exact splitOnChar_no_sep sep x (hfree x (List.mem_cons_self x []))
    | cons y ys =>
      have hx : sep ∉ x := hfree x (List.mem_cons_self x _)
      have hys : ∀ z ∈ y :: ys, sep ∉ z := fun z hz =>
        hfree z (List.mem_cons_of_mem x hz)
      show splitOnChar sep (x ++ sep :: joinChar sep (y :: ys)) = _
      rw [splitOnChar_append_sep sep x _ hx, ih (by simp) hys]

theorem joinChar_eq_nil (sep : Char) (l : List (List Char))
    (h : joinChar sep l = []) : l = [] ∨ l = [[]] := by
  match l with
  | [] => exact Or.inl rfl
  | [x] => exact Or.inr (by simpa [joinChar] using h)
  | x :: y :: ys => simp [joinChar] at h

/-! ## Nonce registry, `src/util/nonce.rs`

The `NonceSet` wraps a mutex-guarded `HashMap<Nonce, Metadata>`; we model the
map as a function from nonce text to optional metadata, and pass the random
nonce text and the current clock (`Utc::now().timestamp_millis()`) explicitly.
The constant below is the source's value: 5,000,000 milliseconds. -/

/-- `NONCE_MAX_AGE_MS` in `src/util/nonce.rs` (the comment above it in the
source says "5 Minutes", but 5 minutes is 300,000 ms, not 5,000,000 ms). -/
def NONCE_MAX_AGE_MS : Int := 5000000

/-- Issuance metadata: the `timestamp_millis` recorded at insertion. -/
structure Metadata where
  time : Int
deriving DecidableEq

/-- `Metadata::is_expired`: strictly older than the max age. -/
def Metadata.is_expired (m : Metadata) (now : Int) : Bool :=
  now - m.time > NONCE_MAX_AGE_MS

/-- `NonceError` of `src/util/nonce.rs`. -/
inductive NonceError where
  | invalid
  | expired
deriving DecidableEq

/-- The `NonceSet`'s guarded map from nonce text to metadata. -/
structure NonceSet where
  inner : String → Option Metadata

/-- `NonceSet::validate_and_remove`: remove the entry (`Invalid` if absent);
the removal happens before the expiry check, so an expired entry is also
removed. -/
def NonceSet.validate_and_remove (st : NonceSet) (nonce : String)
    (now : Int) : Except NonceError Unit × NonceSet :=
  match st.inner nonce with
  | none => (.error .invalid, st)
  | some meta =>
    let st' : NonceSet := ⟨fun k => if k = nonce then none else st.inner k⟩
    if meta.is_expired now then (.error .expired, st') else (.ok (), st')

/-- `NonceSet::insert_new`, with the freshly generated random nonce text and
the clock passed in explicitly. -/
def NonceSet.insert_new (st : NonceSet) (nonce : String) (now : Int) :
    NonceSet :=
  ⟨fun k => if k = nonce then some ⟨now⟩ else st.inner k⟩

/-- `NonceSet::replace`: remove the old entry (`Invalid` if absent) and insert
a fresh one. -/
def NonceSet.replace (st : NonceSet) (old : String) (newNonce : String)
    (now : Int) : Except NonceError String × NonceSet :=
  match st.inner old with
  | none => (.error .invalid, st)
  | some _ =>
    let removed : NonceSet := ⟨fun k => if k = old then none else st.inner k⟩
    (.ok newNonce, NonceSet.insert_new removed newNonce now)

/-! ## Response nonce, `src/openid/nonce.rs`

The provider-issued anti-replay nonce: a UTC timestamp plus a salt.  Its
freshness bound is 30,000 ms in the source (`NONCE_MAX_AGE_MS` of
`src/openid/nonce.rs`, a distinct constant from the registry's). -/

/-- `NONCE_MAX_AGE_MS` in `src/openid/nonce.rs`: 30 seconds. -/
def RESPONSE_NONCE_MAX_AGE_MS : Int := 30000

/-- `openid::nonce::Nonce`: timestamp (milliseconds since epoch) and salt. -/
structure Nonce where
  time : Int
  salt : String
deriving DecidableEq

/-- `Nonce::is_expired` of `src/openid/nonce.rs`: strictly more than 30,000 ms
older than the clock; a future timestamp makes the difference negative. -/
def Nonce.is_expired (n : Nonce) (now : Int) : Bool :=
  now - n.time > RESPONSE_NONCE_MAX_AGE_MS

/-! ## Constants, `src/openid/constants.rs` -/

def OPENID_NAMESPACE : String := "openid.ns"

def OPENID_AUTH_NAMESPACE : String := "http://specs.openid.net/auth/2.0"

def OPENID_CLAIMED_ID : String := "openid.claimed_id"

def OPENID_IDENTITY : String := "openid.identity"

def OPENID_IDENTIFIER_SELECT : String :=
  "http://specs.openid.net/auth/2.0/identifier_select"

def OPENID_MODE : String := "openid.mode"

def OPENID_MODE_CHECKID_SETUP : String := "checkid_setup"

def OPENID_MODE_IDENTIFIER_RESPONSE : String := "id_res"

def OPENID_MODE_CHECK_AUTHENTICATION : String := "check_authentication"

def OPENID_RETURN_TO : String := "openid.return_to"

def OPENID_REALM : String := "openid.realm"

def OPENID_PROVIDER_IDENTIFIER : String :=
  "http://specs.openid.net/auth/2.0/server"

def OPENID_OP_ENDPOINT : String := "openid.op_endpoint"

def OPENID_RESPONSE_NONCE : String := "openid.response_nonce"

def OPENID_ASSOCIATION_HANDLE : String := "openid.assoc_handle"

def OPENID_SIGNED_FIELDS : String := "openid.signed"

def OPENID_SIGNATURE : String := "openid.sig"

/-- `OPENID_FIELD_PREFIX` in the source. -/
def OPENID_FIELD_PFX : String := "openid."

def OPENID_PRIORITY_ATTRIBUTE : String := "priority"

/-! ## String and integer helpers mirroring Rust std behaviour -/

/-- Rust `str::strip_prefix` (named `stripPfx` here): `Some` of the remainder
when the prefix matches, `None` otherwise.  Stated over the character lists of
the strings so that concrete instances reduce in the kernel. -/
def stripPfx (p s : String) : Option String :=
  if p.toList.isPrefixOf s.toList then
    some ⟨s.toList.drop p.toList.length⟩
  else
    none

/-- Accumulate the decimal value of a digit run; `none` on any non-digit. -/
def digitsVal : List Char → Nat → Option Nat
  | [], acc => some acc
  | c :: cs, acc =>
    if c.isDigit then digitsVal cs (acc * 10 + (c.toNat - 48)) else none

/-- One more than the largest `u64`. -/
def U64_BOUND : Nat := 18446744073709551616

/-- One more than the largest `i32` magnitude on the negative side. -/
def I32_NEG_BOUND : Nat := 2147483648

/-- Rust `u64::from_str`: an optional leading `+`, then one or more ASCII
digits, and the value must fit in 64 bits. -/
def parseU64 (s : String) : Option Nat :=
  let cs :=
    match s.toList with
    | '+' :: rest => rest
    | other => other
  match cs with
  | [] => none
  | _ :: _ =>
    match digitsVal cs 0 with
    | none => none
    | some n => if n < U64_BOUND then some n else none

/-- Rust `i32::from_str`: optional sign, digits, 32-bit range check. -/
def parseI32 (s : String) : Option Int :=
  match s.toList with
  | '-' :: rest =>
    match rest with
    | [] => none
    | _ :: _ =>
      match digitsVal rest 0 with
      | none => none
      | some n => if n ≤ I32_NEG_BOUND then some (-(n : Int)) else none
  | '+' :: rest =>
    match rest with
    | [] => none
    | _ :: _ =>
      match digitsVal rest 0 with
      | none => none
      | some n => if n < I32_NEG_BOUND then some (n : Int) else none
  | other =>
    match other with
    | [] => none
    | _ :: _ =>
      match digitsVal other 0 with
      | none => none
      | some n => if n < I32_NEG_BOUND then some (n : Int) else none

/-! ## Discovery data model, `src/openid/provider.rs` -/

/-- `provider::Service`: one signon service of the discovery document. -/
structure Service where
  version : String
  endpoint : String
  local_id : Option String
  priority : Option Int
deriving DecidableEq

/-- `provider::Provider`: holds the single resolved service (the source has a
TODO noting it should instead be a `Vec<Service>` selected by priority). -/
structure Provider where
  service : Service
deriving DecidableEq

/-- `Provider::steam()` of the source's tests. -/
def Provider.steam : Provider :=
  ⟨⟨"http://specs.openid.net/auth/2.0/server",
    "https://steamcommunity.com/openid/login", none, some 0⟩⟩

/-! ## Positive assertion, `src/openid/response.rs` -/

/-- `PositiveAssertion`: the `openid.*` response fields.  The Rust field
`namespace` (wire name `openid.ns`) is called `ns` here because `namespace` is
a Lean keyword; `signed_fields` holds the decoded `CommaSeparated` list. -/
structure PositiveAssertion where
  ns : String
  mode : String
  service_endpoint : String
  claimed_id : String
  identity : String
  return_to : String
  nonce : Nonce
  association_handle : String
  signed_fields : List String
  signature : String
deriving DecidableEq

/-- `EXPECTED_SIGNED_FIELDS` of `PositiveAssertion::validate`. -/
def EXPECTED_SIGNED_FIELDS : List String :=
  [OPENID_OP_ENDPOINT, OPENID_RETURN_TO, OPENID_RESPONSE_NONCE,
   OPENID_ASSOCIATION_HANDLE, OPENID_CLAIMED_ID, OPENID_IDENTITY]

/-- The inner `eq` of `has_fields`: compare an unprefixed present name against
an expected name after stripping `openid.`. -/
def eqNoPfx (actual expected : String) : Bool :=
  match stripPfx OPENID_FIELD_PFX expected with
  | some expectedNoPfx => actual = expectedNoPfx
  | none => false

/-- `has_fields` of `PositiveAssertion::validate`: every expected name is
present (after prefix stripping) in the actual list. -/
def has_fields (actual : List String) (expected : List String) : Bool :=
  expected.all fun e => actual.any fun a => eqNoPfx a e

/-- `PositiveAssertion::validate`: the generic OpenID 2.0 checks, in source
order, failing on the first violated one. -/
def PositiveAssertion.validate (a : PositiveAssertion) (p : Provider) :
    Except String Unit :=
  if a.ns ≠ OPENID_AUTH_NAMESPACE then
    .error "invalid value for openid namespace"
  else if a.mode ≠ OPENID_MODE_IDENTIFIER_RESPONSE then
    .error "invalid mode"
  else if a.service_endpoint ≠ p.service.endpoint then
    .error "provider endpoint does not match"
  else if a.claimed_id ≠ a.identity then
    .error "claimed identity does not match identity"
  else if !has_fields a.signed_fields EXPECTED_SIGNED_FIELDS then
    .error "fields that should be signed are not signed"
  else if a.signature = "" then
    .error "signature field is empty"
  else
    .ok ()

/-- `STEAM_IDENTITY_PREFIX` of `PositiveAssertion::validate_steam`. -/
def STEAM_IDENTITY_PFX : String := "https://steamcommunity.com/openid/id/"

/-- `PositiveAssertion::validate_steam`, with `Utc::now()` passed explicitly:
strip the steam identity prefix from both identifiers, parse both as `u64`,
require equality, then check response-nonce freshness.  Note the Rust function
returns `Result<(), _>`: the parsed id is dropped on success. -/
def PositiveAssertion.validate_steam (a : PositiveAssertion) (now : Int) :
    Except String Unit :=
  match stripPfx STEAM_IDENTITY_PFX a.claimed_id with
  | none => .error "claimed identity is not for a steam id"
  | some claimedRest =>
    match parseU64 claimedRest with
    | none => .error "claimed identity cannot represent a steam id"
    | some claimed_id_id =>
      match stripPfx STEAM_IDENTITY_PFX a.identity with
      | none => .error "identity is not for a steam id"
      | some identityRest =>
        match parseU64 identityRest with
        | none => .error "identity cannot represent a steam id"
        | some identity_id =>
          if claimed_id_id ≠ identity_id then
            .error "claimed id does not match identity"
          else if a.nonce.is_expired now then
            .error "too old"
          else
            .ok ()

/-- `PositiveAssertion::set_mode`. -/
def PositiveAssertion.set_mode (a : PositiveAssertion) (mode : String) :
    PositiveAssertion :=
  { a with mode := mode }

/-! ## Re-verification response, `src/openid/validate.rs` -/

/-- `VerifyResponse`; the Rust field `namespace` is called `ns` here. -/
structure VerifyResponse where
  ns : String
  is_valid : Bool
deriving DecidableEq

/-! ## The validation pipeline of `src/api/auth/steam.rs`

`validate_positive_assertion` runs the generic validation, then the steam
validation, and only then performs the network round-trip
`verify_against_provider`; the outcome of that external HTTP call is passed in
as `verify`.  The first component records whether the network call was
reached. -/

def validate_positive_assertion (a : PositiveAssertion) (p : Provider)
    (now : Int) (verify : Except String VerifyResponse) :
    Bool × Except String VerifyResponse :=
  match a.validate p with
  | .error e => (false, .error e)
  | .ok _ =>
    match a.validate_steam now with
    | .error e => (false, .error e)
    | .ok _ => (true, verify)

/-! ## Spec-side check list for the generic validation (C4)

`specGenericChecks` is written from the specification's words ("checks, in
order, failing fast on first violation"), to be compared against the
source-derived `PositiveAssertion.validate`. -/

/-- Run an ordered list of boolean checks, returning the error message of the
first failing one. -/
def runChecks : List ((PositiveAssertion → Bool) × String) →
    PositiveAssertion → Except String Unit
  | [], _ => .ok ()
  | (c, msg) :: rest, a => if c a then runChecks rest a else .error msg

/-- The specification's ordered check list for generic validation. -/
def specGenericChecks (p : Provider) :
    List ((PositiveAssertion → Bool) × String) :=
  [(fun a => a.ns = OPENID_AUTH_NAMESPACE,
    "invalid value for openid namespace"),
   (fun a => a.mode = OPENID_MODE_IDENTIFIER_RESPONSE,
    "invalid mode"),
   (fun a => a.service_endpoint = p.service.endpoint,
    "provider endpoint does not match"),
   (fun a => a.claimed_id = a.identity,
    "claimed identity does not match identity"),
   (fun a => has_fields a.signed_fields EXPECTED_SIGNED_FIELDS,
    "fields that should be signed are not signed"),
   (fun a => a.signature ≠ "",
    "signature field is empty")]

/-! ## Concrete sample data used by witnesses and counterexamples -/

/-- A well-formed positive assertion for steam id `id` whose response nonce
carries timestamp `time` (milliseconds). -/
def sampleAssertion (id : Nat) (time : Int) : PositiveAssertion :=
  { ns := OPENID_AUTH_NAMESPACE,
    mode := OPENID_MODE_IDENTIFIER_RESPONSE,
    service_endpoint := "https://steamcommunity.com/openid/login",
    claimed_id := STEAM_IDENTITY_PFX ++ toString id,
    identity := STEAM_IDENTITY_PFX ++ toString id,
    return_to := "http://localhost:8080/api/auth/steam/callback",
    nonce := ⟨time, "7RPb74voq1sqY2sKMcnOe/rxwQg="⟩,
    association_handle := "1234567890",
    signed_fields := ["signed", "op_endpoint", "claimed_id", "identity",
                      "return_to", "response_nonce", "assoc_handle"],
    signature := "SPaIMgwuYCQ2zVlgYmbSAKfD8Ps=" }

/-- A positive assertion whose claimed identifier and local identifier carry
different steam ids. -/
def mismatchedAssertion : PositiveAssertion :=
  { sampleAssertion 1 0 with
    identity := "https://steamcommunity.com/openid/id/2" }

/-! ## Claim theorems: wire codec (C5), nonces (C2, C8, C10) -/

/-- C5 counterexample: the claim requires `decode(encode([])) = []` for the
comma-separated codec of `src/openid/comma_separated.rs`, but the empty list
encodes to the empty string and the empty string decodes to the singleton list
containing the empty string, not to the empty list. -/
theorem comma_separated_empty_roundtrip_fails :
    CommaSeparated.toString [] = [] ∧
    CommaSeparated.fromStr ([] : List Char) = [[]] ∧
    CommaSeparated.fromStr (CommaSeparated.toString []) ≠ [] :=
  ⟨rfl, rfl, by decide⟩

/-- C5 (amended): for comma-free element lists, decode-of-encode is the
identity for every nonempty list under the codec of
`src/openid/comma_separated.rs`, and for every list other than `[""]`
(including the empty list) under the generic codec of
`src/openid/util/comma_separated.rs`; the two codecs disagree exactly on how
the empty string decodes. -/
theorem comma_separated_roundtrip_amended (l : List (List Char))
    (hfree : ∀ x ∈ l, ',' ∉ x) :
    (l ≠ [] → CommaSeparated.fromStr (CommaSeparated.toString l) = l) ∧
    (l ≠ [[]] → CommaSeparatedGen.fromStr (CommaSeparatedGen.toString l) = l) := by
  constructor
  · intro hne
    exact splitOnChar_joinChar ',' l hne hfree
  · intro hne
    rcases eq_or_ne l [] with h | h
    · subst h; rfl
    · have hj : joinChar ',' l ≠ [] := by
        intro hj
        rcases joinChar_eq_nil ',' l hj with h1 | h1
        · exact h h1
        · exact hne h1
      unfold CommaSeparatedGen.fromStr CommaSeparatedGen.toString
      rw [if_neg hj]
      exact splitOnChar_joinChar ',' l h hfree

/-- Witness for C5 (amended), at the concrete list `["a", "bc"]`. -/
theorem comma_separated_roundtrip_amended_witness :
    CommaSeparated.fromStr (CommaSeparated.toString [['a'], ['b', 'c']]) =
      [['a'], ['b', 'c']] ∧
    CommaSeparatedGen.fromStr (CommaSeparatedGen.toString [['a'], ['b', 'c']]) =
      [['a'], ['b', 'c']] :=
  ⟨(comma_separated_roundtrip_amended [['a'], ['b', 'c']] (by decide)).1
    (by decide),
   (comma_separated_roundtrip_amended [['a'], ['b', 'c']] (by decide)).2
    (by decide)⟩

/-- C2: the claim (and the comment above the constant in `src/util/nonce.rs`)
says a nonce becomes `Expired` after 5 minutes, so a nonce issued 6 minutes
(360,000 ms) ago should fail; but `NONCE_MAX_AGE_MS` is 5,000,000 ms (about
83 minutes), so `validate_and_remove` accepts the 6-minute-old nonce. -/
theorem validate_and_remove_six_minute_old_succeeds :
    NONCE_MAX_AGE_MS ≠ 300000 ∧
    Metadata.is_expired ⟨0⟩ 360000 = false ∧
    (NonceSet.validate_and_remove
      ⟨fun k => if k = "nonce" then some ⟨0⟩ else none⟩ "nonce" 360000).1 =
      .ok () :=
  ⟨by decide, by decide, rfl⟩

/-- C8: after `insert_new` issues a nonce, `validate_and_remove` on its text
succeeds exactly once — the first call inside the expiry window succeeds and
removes the entry, and any later call with the same text gets `Invalid`. -/
theorem nonce_single_use (st : NonceSet) (s : String) (t now1 now2 : Int)
    (h : now1 - t ≤ NONCE_MAX_AGE_MS) :
    ((st.insert_new s t).validate_and_remove s now1).1 = .ok () ∧
    (((st.insert_new s t).validate_and_remove s now1).2).inner s = none ∧
    ((((st.insert_new s t).validate_and_remove s now1).2).validate_and_remove
      s now2).1 = .error .invalid := by
  have hexp : Metadata.is_expired ⟨t⟩ now1 = false := by
    simp only [NONCE_MAX_AGE_MS] at h
    simp only [Metadata.is_expired, NONCE_MAX_AGE_MS,
               decide_eq_false_iff_not, not_lt]
    omega
  refine ⟨?_, ?_, ?_⟩ <;>
    simp [NonceSet.validate_and_remove, NonceSet.insert_new, hexp]

/-- Witness for C8 at a concrete registry, nonce and clock values. -/
theorem nonce_single_use_witness :
    (((⟨fun _ => none⟩ : NonceSet).insert_new "abc" 0).validate_and_remove
      "abc" 1000).1 = .ok () ∧
    ((((⟨fun _ => none⟩ : NonceSet).insert_new "abc" 0).validate_and_remove
      "abc" 1000).2).inner "abc" = none ∧
    (((((⟨fun _ => none⟩ : NonceSet).insert_new "abc" 0).validate_and_remove
      "abc" 1000).2).validate_and_remove "abc" 2000).1 = .error .invalid :=
  nonce_single_use ⟨fun _ => none⟩ "abc" 0 1000 2000 (by decide)

/-- C10: `Nonce::is_expired` of `src/openid/nonce.rs` reports any
future-stamped response nonce as not expired, with no bound on how far in the
future the timestamp lies. -/
theorem response_nonce_future_not_expired (n : Nonce) (now : Int)
    (h : now ≤ n.time) : n.is_expired now = false := by
  simp only [Nonce.is_expired, RESPONSE_NONCE_MAX_AGE_MS,
             decide_eq_false_iff_not, not_lt]
  omega

/-- Witness for C10: a nonce a trillion milliseconds in the future. -/
theorem response_nonce_future_not_expired_witness :
    Nonce.is_expired ⟨1000000000000, "salt"⟩ 0 = false :=
  response_nonce_future_not_expired ⟨1000000000000, "salt"⟩ 0 (by decide)

/-! ## Claim theorems: steam-specific validation (C3) -/

/-- C3 counterexample: the claim says `validate_steam` "returns that u64 id",
but the Rust function returns `Result<(), _>`: two valid assertions carrying
the distinct steam ids 1 and 2 produce the identical success value `()`, so
the result cannot carry the id. -/
theorem validate_steam_returns_unit_not_id :
    (sampleAssertion 1 0).claimed_id ≠ (sampleAssertion 2 0).claimed_id ∧
    (sampleAssertion 1 0).validate_steam 0 = .ok () ∧
    (sampleAssertion 2 0).validate_steam 0 = .ok () ∧
    (sampleAssertion 1 0).validate_steam 0 =
      (sampleAssertion 2 0).validate_steam 0 :=
  ⟨by decide, rfl, rfl, rfl⟩

/-- C3 (amended): for an assertion whose claimed identifier and identity both
carry the steam identity prefix followed by the same numeric id,
`validate_steam` succeeds — returning unit, not the id, which the caller
re-extracts itself — exactly when the response nonce is at most 30 seconds
old, and rejects a staler nonce with the "too old" error; a nonce 40 seconds
old fails, one 10 seconds old passes (see the witness). -/
theorem validate_steam_amended (a : PositiveAssertion) (now : Int) (n : Nat)
    (hc : (stripPfx STEAM_IDENTITY_PFX a.claimed_id).bind parseU64 = some n)
    (hi : (stripPfx STEAM_IDENTITY_PFX a.identity).bind parseU64 = some n) :
    (a.validate_steam now = .ok () ↔
      now - a.nonce.time ≤ RESPONSE_NONCE_MAX_AGE_MS) ∧
    (RESPONSE_NONCE_MAX_AGE_MS < now - a.nonce.time →
      a.validate_steam now = .error "too old") := by
  rcases Option.bind_eq_some.mp hc with ⟨s1, hs1, hp1⟩
  rcases Option.bind_eq_some.mp hi with ⟨s2, hs2, hp2⟩
  have hval : a.validate_steam now =
      if a.nonce.is_expired now then .error "too old" else .ok () := by
    simp [PositiveAssertion.validate_steam, hs1, hp1, hs2, hp2]
  by_cases hfresh : now - a.nonce.time ≤ RESPONSE_NONCE_MAX_AGE_MS
  · have hbool : a.nonce.is_expired now = false := by
      simp only [Nonce.is_expired, decide_eq_false_iff_not, not_lt]
      exact hfresh
    rw [hval, hbool]
    exact ⟨by simp [hfresh], fun hlt => absurd hfresh (not_le.mpr hlt)⟩
  · have hbool : a.nonce.is_expired now = true := by
      simp only [Nonce.is_expired, decide_eq_true_eq]
      exact not_le.mp hfresh
    rw [hval, hbool]
    simp [hfresh]

/-- Witness for C3 (amended): a response nonce 40 seconds old fails with
"too old" and one 10 seconds old passes, for steam id 7. -/
theorem validate_steam_amended_witness :
    (sampleAssertion 7 0).validate_steam 40000 = .error "too old" ∧
    (sampleAssertion 7 0).validate_steam 10000 = .ok () := by
  have h40 := validate_steam_amended (sampleAssertion 7 0) 40000 7 rfl rfl
  have h10 := validate_steam_amended (sampleAssertion 7 0) 10000 7 rfl rfl
  exact ⟨h40.2 (by decide), h10.1.mpr (by decide)⟩

/-! ## Claim theorems: generic validation order (C4) -/

/-- C4: `PositiveAssertion::validate` performs exactly the specified checks in
the specified order, failing fast on the first violation (it coincides with
running the spec's ordered check list); and whenever `claimed_id` differs
from `identity` the validation pipeline errors without ever reaching the
network round-trip `verify_against_provider`. -/
theorem validate_checks_in_order (a : PositiveAssertion) (p : Provider)
    (now : Int) (verify : Except String VerifyResponse) :
    a.validate p = runChecks (specGenericChecks p) a ∧
    (a.claimed_id ≠ a.identity →
      (∃ e, a.validate p = .error e) ∧
      (validate_positive_assertion a p now verify).1 = false) := by
  have horder : a.validate p = runChecks (specGenericChecks p) a := by
    simp only [PositiveAssertion.validate, specGenericChecks, runChecks]
    by_cases h1 : a.ns = OPENID_AUTH_NAMESPACE <;>
      by_cases h2 : a.mode = OPENID_MODE_IDENTIFIER_RESPONSE <;>
        by_cases h3 : a.service_endpoint = p.service.endpoint <;>
          by_cases h4 : a.claimed_id = a.identity <;>
            cases h5 : has_fields a.signed_fields EXPECTED_SIGNED_FIELDS <;>
              by_cases h6 : a.signature = "" <;>
                simp [h1, h2, h3, h4, h5, h6]
  have herr : ∀ u, a.claimed_id ≠ a.identity → a.validate p ≠ .ok u := by
    intro u hne hv
    simp only [PositiveAssertion.validate] at hv
    split_ifs at hv with h1 h2 h3
  refine ⟨horder, fun hne => ?_⟩
  have hex : ∃ e, a.validate p = .error e := by
    cases hx : a.validate p with
    | error e => exact ⟨e, rfl⟩
    | ok u => exact absurd hx (herr u hne)
  rcases hex with ⟨e, he⟩
  exact ⟨⟨e, he⟩, by simp [validate_positive_assertion, he]⟩

/-- Witness for C4: a concrete assertion with mismatched identifiers fails
validation and the network flag stays `false`. -/
theorem validate_checks_in_order_witness :
    mismatchedAssertion.validate Provider.steam =
      runChecks (specGenericChecks Provider.steam) mismatchedAssertion ∧
    (∃ e, mismatchedAssertion.validate Provider.steam = .error e) ∧
    (validate_positive_assertion mismatchedAssertion Provider.steam 0
      (.ok ⟨OPENID_AUTH_NAMESPACE, true⟩)).1 = false :=
  ⟨(validate_checks_in_order mismatchedAssertion Provider.steam 0
      (.ok ⟨OPENID_AUTH_NAMESPACE, true⟩)).1,
   ((validate_checks_in_order mismatchedAssertion Provider.steam 0
      (.ok ⟨OPENID_AUTH_NAMESPACE, true⟩)).2 (by decide)).1,
   ((validate_checks_in_order mismatchedAssertion Provider.steam 0
      (.ok ⟨OPENID_AUTH_NAMESPACE, true⟩)).2 (by decide)).2⟩

/-! ## Key-value form codec

Two decoders exist in the source:
- the serde deserializer of `src/openid/util/key_values/de.rs`, whose
  map-access loop demands a `:` before every key and a `\n` after every
  value (`next_key_seed` / `next_value_seed`);
- `parse_key_value_form` of `src/openid/validate.rs`, which trims the body,
  splits on `\n` and requires a `:` in every line.

`splitOnce` is Rust `str::split_once`: split at the first occurrence of the
separator. -/

/-- Rust `str::split_once`. -/
def splitOnce (sep : Char) : List Char → Option (List Char × List Char)
  | [] => none
  | c :: cs =>
    if c = sep then some ([], cs)
    else
      match splitOnce sep cs with
      | none => none
      | some (a, b) => some (c :: a, b)

theorem splitOnce_length (sep : Char) (s a b : List Char)
    (h : splitOnce sep s = some (a, b)) : b.length < s.length := by
  induction s generalizing a b with
  | nil => simp [splitOnce] at h
  | cons c cs ih =>
    simp only [splitOnce] at h
    by_cases hc : c = sep
    · rw [if_pos hc] at h
      injection h with h1
      injection h1 with h1 h2
      subst h2
      simp
    · rw [if_neg hc] at h
      cases hsp : splitOnce sep cs with
      | none => rw [hsp] at h; exact absurd h (by simp)
      | some ab =>
        rw [hsp] at h
        obtain ⟨a0, b0⟩ := ab
        injection h with h1
        injection h1 with h1 h2
        subst h2
        have := ih _ _ hsp
        simp only [List.length_cons]
        omega

theorem splitOnce_eq_append (sep : Char) (s a b : List Char)
    (h : splitOnce sep s = some (a, b)) : s = a ++ sep :: b := by
  induction s generalizing a b with
  | nil => simp [splitOnce] at h
  | cons c cs ih =>
    simp only [splitOnce] at h
    by_cases hc : c = sep
    · rw [if_pos hc] at h
      injection h with h1
      injection h1 with h1 h2
      subst h1; subst h2; subst hc
      rfl
    · rw [if_neg hc] at h
      cases hsp : splitOnce sep cs with
      | none => rw [hsp] at h; exact absurd h (by simp)
      | some ab =>
        rw [hsp] at h
        obtain ⟨a0, b0⟩ := ab
        injection h with h1
        injection h1 with h1 h2
        subst h1; subst h2
        simpa using ih a0 b0 hsp

/-- The error cases the serde deserializer's map path can produce
(`Error::ExpectedColon` from `next_key_seed`, `Error::ExpectedNewline` from
`next_value_seed`; the source enum has further variants for other paths). -/
inductive KvError where
  | expectedColon
  | expectedNewline
deriving DecidableEq

/-- The serde map-access loop of `src/openid/util/key_values/de.rs` for a
string-to-string map: while input remains, `next_key_seed` requires a colon
and consumes the key up to it, `next_value_seed` requires a newline and
consumes the value up to it; the loop ends successfully only on empty
input. -/
def kvPairs : List Char → Except KvError (List (List Char × List Char))
  | [] => .ok []
  | c :: cs =>
    match h1 : splitOnce ':' (c :: cs) with
    | none => .error .expectedColon
    | some (key, afterKey) =>
      match h2 : splitOnce '\n' afterKey with
      | none => .error .expectedNewline
      | some (value, rest) =>
        match kvPairs rest with
        | .error e => .error e
        | .ok l => .ok ((key, value) :: l)
  termination_by s => s.length
  decreasing_by
    have ha := splitOnce_length ':' (c :: cs) key afterKey h1
    have hb := splitOnce_length '\n' afterKey value rest h2
    omega

theorem getLast?_append_cons {α : Type} (a : List α) (c : α) (b : List α) :
    (a ++ c :: b).getLast? = (c :: b).getLast? := by
  cases hb : (c :: b).getLast? with
  | none => simp [List.getLast?_eq_none_iff] at hb
  | some x => simp [List.getLast?_append, hb]

/-- A successful `kvPairs` run consumes records that each end in `\n`, so a
nonempty successfully-decoded input ends in `\n`. -/
theorem kvPairs_ok_last (s : List Char) (l : List (List Char × List Char))
    (h : kvPairs s = .ok l) (hne : s ≠ []) : s.getLast? = some '\n' := by
  have H : ∀ (n : Nat) (s : List Char) (l : List (List Char × List Char)),
      s.length ≤ n → kvPairs s = .ok l → s ≠ [] →
      s.getLast? = some '\n' := by
    intro n
    induction n with
    | zero =>
      intro s l hle h hne
      cases s with
      | nil => exact absurd rfl hne
      | cons c cs => simp at hle
    | succ n ih =>
      intro s l hle h hne
      cases s with
      | nil => exact absurd rfl hne
      | cons c cs =>
        unfold kvPairs at h
        split at h
        · exact absurd h (by simp)
        · split at h
          · exact absurd h (by simp)
          · rename_i key afterKey h1 value rest h2
            split at h
            · exact absurd h (by simp)
            · rename_i l0 hrec
              have hkey := splitOnce_eq_append ':' (c :: cs) key afterKey h1
              have hval := splitOnce_eq_append '\n' afterKey value rest h2
              have hS : c :: cs = (key ++ ':' :: value) ++ '\n' :: rest := by
                rw [hkey, hval]; simp
              rw [hS, getLast?_append_cons]
              cases hrest : rest with
              | nil => rfl
              | cons r rs =>
                have hlen1 := splitOnce_length ':' (c :: cs) key afterKey h1
                have hlen2 := splitOnce_length '\n' afterKey value rest h2
                have hlast := ih rest l0
                  (by simp only [List.length_cons] at hle hlen1; omega) hrec
                  (by rw [hrest]; simp)
                rw [hrest] at hlast
                simpa using hlast
  exact H s.length s l le_rfl h hne

/-! ## `parse_key_value_form`, `src/openid/validate.rs` -/

/-- Rust `str::trim` (restricted to the ASCII whitespace characters, which is
what occurs in key-value bodies): drop whitespace from both ends. -/
def rustTrim (s : List Char) : List Char :=
  ((s.dropWhile Char.isWhitespace).reverse.dropWhile Char.isWhitespace).reverse

/-- The `lines.map(split_once(':')).collect::<Option<Vec<_>>>()` step: every
line must contain a colon, else the whole decode fails. -/
def collectColon : List (List Char) → Option (List (List Char × List Char))
  | [] => some []
  | line :: rest =>
    match splitOnce ':' line with
    | none => none
    | some kv =>
      match collectColon rest with
      | none => none
      | some l => some (kv :: l)

/-- Rust `bool::from_str`: exactly `true` or `false`. -/
def parseBool (s : List Char) : Option Bool :=
  if s = ['t', 'r', 'u', 'e'] then some true
  else if s = ['f', 'a', 'l', 's', 'e'] then some false
  else none

/-- One iteration of `parse_key_value_form`'s match on a `(k, v)` pair,
updating the `VerifyResponse` under construction. -/
def applyKv (r : VerifyResponse) (kv : List Char × List Char) :
    Except String VerifyResponse :=
  if kv.1 = ['n', 's'] then
    if kv.2 = OPENID_AUTH_NAMESPACE.toList then
      .ok { r with ns := OPENID_AUTH_NAMESPACE }
    else
      .error "response field ns contains an invalid value"
  else if kv.1 = "is_valid".toList then
    match parseBool kv.2 with
    | some b => .ok { r with is_valid := b }
    | none => .error "response field is_valid is not a valid bool"
  else
    .error "response contains unknown field"

/-- `parse_key_value_form`: trim the body, split into lines on `\n`, require
a colon in every line, then fold the pairs over a default `VerifyResponse`
(`ns` empty, `is_valid` false). -/
def parse_key_value_form (text : List Char) : Except String VerifyResponse :=
  let lines := splitOnChar '\n' (rustTrim text)
  match collectColon lines with
  | none => .error "key value form contains a line without a semicolon"
  | some kvPairsList => kvPairsList.foldlM applyKv ⟨"", false⟩

/-! ## Claim theorems: key-value decoding of unterminated input (C6) -/

/-- C6 counterexample: the claim says both decoders reject an input whose
final record lacks the terminating newline, but `parse_key_value_form` trims
the body before splitting and accepts this body whose last character is not a
newline. -/
theorem parse_key_value_form_missing_newline_succeeds :
    ("ns:http://specs.openid.net/auth/2.0\nis_valid:true".toList.getLast? ≠
      some '\n') ∧
    parse_key_value_form
      "ns:http://specs.openid.net/auth/2.0\nis_valid:true".toList =
      .ok ⟨OPENID_AUTH_NAMESPACE, true⟩ :=
  ⟨by decide, rfl⟩

/-- C6 (amended): the serde key-value codec of
`src/openid/util/key_values/de.rs` rejects every nonempty input that does not
end in a newline (so in particular every input whose final record lacks its
terminating newline), while `parse_key_value_form` of
`src/openid/validate.rs` trims the body first and accepts such a body. -/
theorem kv_missing_newline_amended :
    (∀ (s : List Char), s ≠ [] → s.getLast? ≠ some '\n' →
      ∃ e, kvPairs s = .error e) ∧
    parse_key_value_form
      "ns:http://specs.openid.net/auth/2.0\nis_valid:true".toList =
      .ok ⟨OPENID_AUTH_NAMESPACE, true⟩ := by
  refine ⟨fun s hne hlast => ?_, rfl⟩
  cases hx : kvPairs s with
  | error e => exact ⟨e, rfl⟩
  | ok l => exact absurd (kvPairs_ok_last s l hx hne) hlast

/-- Witness for C6 (amended): the serde codec rejects the concrete
unterminated body `"a:1\nb:2"`. -/
theorem kv_missing_newline_amended_witness :
    ∃ e, kvPairs "a:1\nb:2".toList = .error e :=
  kv_missing_newline_amended.1 "a:1\nb:2".toList (by decide) (by decide)

/-! ## XML node tree and discovery parsing

`roxmltree::Document::parse` (the XML text parser) is the external library;
the repository's own code walks the parsed node tree, so the embedding starts
from a tree of elements and text nodes plus the root's namespace
declarations.  The helpers below are those of `src/openid/util/xml.rs`. -/

/-- A parsed XML node: an element (tag, attributes, children) or a text
node. -/
inductive XmlNode where
  | element (tag : String) (attributes : List (String × String))
      (children : List XmlNode)
  | text (content : String)

def XmlNode.isElement : XmlNode → Bool
  | .element .. => true
  | .text _ => false

def XmlNode.isText : XmlNode → Bool
  | .element .. => false
  | .text _ => true

/-- `tag_name().name()`; a text node has the empty tag name in roxmltree. -/
def XmlNode.tagName : XmlNode → String
  | .element t _ _ => t
  | .text _ => ""

def XmlNode.childNodes : XmlNode → List XmlNode
  | .element _ _ c => c
  | .text _ => []

/-- `Node::attribute(name)`. -/
def XmlNode.attribute (n : XmlNode) (name : String) : Option String :=
  match n with
  | .element _ attrs _ => (attrs.find? fun a => a.1 == name).map Prod.snd
  | .text _ => none

/-- A namespace declaration of the root element (`util::xml::Namespace`). -/
structure Namespace where
  name : Option String
  uri : String
deriving DecidableEq

/-- `Namespace::matches`. -/
def Namespace.matches (n : Namespace) (other : Namespace) : Bool :=
  n.name == other.name && n.uri == other.uri

/-- A parsed discovery document: root element plus the root's namespace
declarations (what `doc.root_element().namespaces()` yields). -/
structure XmlDocument where
  root : XmlNode
  namespaces : List Namespace

/-- Byte-lexicographic `&str` ordering (char-lexicographic here; identical on
ASCII). -/
def charListLe : List Char → List Char → Bool
  | [], _ => true
  | _ :: _, [] => false
  | a :: as, b :: bs =>
    if a < b then true else if b < a then false else charListLe as bs

def strLe (a b : String) : Bool :=
  charListLe a.toList b.toList

/-- Rust `Option<&str>` ordering: `None` sorts before `Some`. -/
def optNameLe : Option String → Option String → Bool
  | none, _ => true
  | some _, none => false
  | some a, some b => strLe a b

def insertSortedBy {α : Type} (le : α → α → Bool) (x : α) :
    List α → List α
  | [] => [x]
  | y :: ys => if le x y then x :: y :: ys else y :: insertSortedBy le x ys

/-- `sort_unstable_by` (insertion sort; the keys compared are distinct in
every use). -/
def sortBy {α : Type} (le : α → α → Bool) (l : List α) : List α :=
  l.foldr (insertSortedBy le) []

/-- `namespaces_eq` of `src/openid/util/xml.rs`: sort both namespace lists by
name, require equal length and pairwise `matches`. -/
def namespaces_eq (doc : XmlDocument) (expected : List Namespace) :
    Except String Unit :=
  let rootNs := sortBy (fun a b => optNameLe a.name b.name) doc.namespaces
  let exp := sortBy (fun a b => optNameLe a.name b.name) expected
  if rootNs.length ≠ exp.length then
    .error "root node does not have expected number of namespaces"
  else if !((List.zip rootNs exp).all fun p => p.2.matches p.1) then
    .error "at least one namespace differs from the expected"
  else
    .ok ()

/-- `get_only_child`: exactly one element child, with the given tag name. -/
def get_only_child (node : XmlNode) (tagName : String) :
    Except String XmlNode :=
  match node.childNodes.filter XmlNode.isElement with
  | [] => .error "node does not have any children"
  | [first] =>
    if first.tagName ≠ tagName then .error "child has unexpected tag name"
    else .ok first
  | _ :: _ :: _ => .error "node has more than one child"

/-- `get_only_text_child`: exactly one text child; return its content. -/
def get_only_text_child (node : XmlNode) : Except String String :=
  match node.childNodes.filter XmlNode.isText with
  | [] => .error "node does not have any children"
  | [first] =>
    match first with
    | .text t => .ok t
    | .element .. => .error "filtered text child is not a text node"
  | _ :: _ :: _ => .error "node has more than one child"

/-- `get_child_set`: the element children's tag names, sorted, must equal the
expected tag names, sorted; the result maps each tag name to its node. -/
def get_child_set (node : XmlNode) (tagNames : List String) :
    Except String (List (String × XmlNode)) :=
  let childrenWithNames :=
    (node.childNodes.filter XmlNode.isElement).map fun c => (c.tagName, c)
  if childrenWithNames.length ≠ tagNames.length then
    .error "node has unexpected number of children"
  else
    let sortedChildren := sortBy (fun a b => strLe a.1 b.1) childrenWithNames
    let sortedTags := sortBy strLe tagNames
    if !((List.zip sortedChildren sortedTags).all fun p => p.1.1 == p.2) then
      .error "tag names of children do not match expected tag names"
    else
      .ok ((List.zip sortedChildren sortedTags).map fun p => (p.2, p.1.2))

/-- `HashMap::get` on the child set (the source `unwrap`s the result; a
missing key would be a panic, modelled as the error below). -/
def lookupTag (m : List (String × XmlNode)) (tag : String) : Option XmlNode :=
  (m.find? fun p => p.1 == tag).map Prod.snd

def NAMESPACE_DEFAULT : String := "xri://$xrd*($v*2.0)"

def NAMESPACE_XRDS : String := "xri://$xrds"

def TAG_NAME_XRD : String := "XRD"

def TAG_NAME_SERVICE : String := "Service"

def TAG_NAME_TYPE : String := "Type"

def TAG_NAME_URI : String := "URI"

def EXPECTED_NAMESPACES : List Namespace :=
  [⟨none, NAMESPACE_DEFAULT⟩, ⟨some "xrds", NAMESPACE_XRDS⟩]

/-- `Service::from_node` of `src/openid/provider.rs`. -/
def Service.from_node (serviceNode : XmlNode) : Except String Service :=
  if serviceNode.tagName ≠ TAG_NAME_SERVICE then
    .error "trying to parse service element with invalid tag name"
  else
    match serviceNode.attribute OPENID_PRIORITY_ATTRIBUTE with
    | none => .error "service element is missing priority attribute"
    | some priorityStr =>
      match parseI32 priorityStr with
      | none => .error "cannot parse priority as an integer"
      | some priority =>
        match get_child_set serviceNode [TAG_NAME_URI, TAG_NAME_TYPE] with
        | .error e => .error e
        | .ok serviceChildren =>
          match lookupTag serviceChildren TAG_NAME_TYPE with
          | none => .error "panic: Type not present in child set"
          | some typeNode =>
            match get_only_text_child typeNode with
            | .error e => .error e
            | .ok service_type =>
              if service_type ≠ OPENID_PROVIDER_IDENTIFIER then
                .error "text in type tag does not match spec"
              else
                match lookupTag serviceChildren TAG_NAME_URI with
                | none => .error "panic: URI not present in child set"
                | some uriNode =>
                  match get_only_text_child uriNode with
                  | .error e => .error e
                  | .ok endpoint =>
                    .ok ⟨OPENID_AUTH_NAMESPACE, endpoint, none,
                         some priority⟩

/-- `Provider::from_node` of `src/openid/provider.rs`: the `Service` element
must be the ONLY child of `XRD`. -/
def Provider.from_node (xrdNode : XmlNode) : Except String Provider :=
  if xrdNode.tagName ≠ TAG_NAME_XRD then
    .error "trying to parse provider element with invalid tag name"
  else
    match get_only_child xrdNode TAG_NAME_SERVICE with
    | .error e => .error e
    | .ok serviceNode =>
      match Service.from_node serviceNode with
      | .error e => .error e
      | .ok s => .ok ⟨s⟩

/-- `Provider::from_xml` of `src/openid/provider.rs` (after the external
`roxmltree` parse). -/
def Provider.from_xml (doc : XmlDocument) : Except String Provider :=
  match namespaces_eq doc EXPECTED_NAMESPACES with
  | .error e => .error e
  | .ok _ =>
    match get_only_child doc.root TAG_NAME_XRD with
    | .error e => .error e
    | .ok xrd => Provider.from_node xrd

/-- The `Provider` struct of the older variant `src/openid/xml.rs`. -/
structure XmlProvider where
  version : String
  endpoint : String
deriving DecidableEq

/-- `parse_xml` of `src/openid/xml.rs` (after the external `roxmltree`
parse): same shape requirements, including `Service` as the only child. -/
def parse_xml (doc : XmlDocument) : Except String XmlProvider :=
  match namespaces_eq doc EXPECTED_NAMESPACES with
  | .error e => .error e
  | .ok _ =>
    match get_only_child doc.root TAG_NAME_XRD with
    | .error e => .error e
    | .ok xrd =>
      match get_only_child xrd TAG_NAME_SERVICE with
      | .error e => .error e
      | .ok service =>
        match get_child_set service [TAG_NAME_URI, TAG_NAME_TYPE] with
        | .error e => .error e
        | .ok serviceChildren =>
          match lookupTag serviceChildren TAG_NAME_TYPE with
          | none => .error "panic: Type not present in child set"
          | some typeNode =>
            match get_only_text_child typeNode with
            | .error e => .error e
            | .ok service_type =>
              if service_type ≠ OPENID_PROVIDER_IDENTIFIER then
                .error "text in type tag does not match spec"
              else
                match lookupTag serviceChildren TAG_NAME_URI with
                | none => .error "panic: URI not present in child set"
                | some uriNode =>
                  match get_only_text_child uriNode with
                  | .error e => .error e
                  | .ok endpoint =>
                    .ok ⟨OPENID_AUTH_NAMESPACE, endpoint⟩

/-- A well-formed signon `Service` element with the given `priority`
attribute text and endpoint URI. -/
def mkServiceNode (priorityVal : String) (uri : String) : XmlNode :=
  .element TAG_NAME_SERVICE [(OPENID_PRIORITY_ATTRIBUTE, priorityVal)]
    [.element TAG_NAME_TYPE [] [.text OPENID_PROVIDER_IDENTIFIER],
     .element TAG_NAME_URI [] [.text uri]]

/-- A discovery document whose `XRD` holds two well-formed services, with
priorities 5 and 0. -/
def twoServiceDoc : XmlDocument :=
  { root := .element "XRDS" []
      [.element TAG_NAME_XRD []
        [mkServiceNode "5" "https://idp.example/five",
         mkServiceNode "0" "https://idp.example/zero"]],
    namespaces := EXPECTED_NAMESPACES }

/-- A discovery document with a single well-formed service. -/
def oneServiceDoc : XmlDocument :=
  { root := .element "XRDS" []
      [.element TAG_NAME_XRD []
        [mkServiceNode "0" "https://idp.example/zero"]],
    namespaces := EXPECTED_NAMESPACES }

/-! ## Claim theorem: discovery with multiple services (C1) -/

/-- C1: the claim (and the source's own TODO, which says the provider should
hold a `Vec<Service>` selected by priority) requires discovery over a
document with several well-formed signon services to succeed and pick the
lowest priority; but both `Provider::from_xml` and the older `parse_xml`
require the `Service` element to be the only child of `XRD`
(`get_only_child`), so the two-service document — each service individually
well-formed — is rejected, while the single-service document succeeds. -/
theorem discovery_two_services_fails :
    Service.from_node (mkServiceNode "5" "https://idp.example/five") =
      .ok ⟨OPENID_AUTH_NAMESPACE, "https://idp.example/five", none, some 5⟩ ∧
    Service.from_node (mkServiceNode "0" "https://idp.example/zero") =
      .ok ⟨OPENID_AUTH_NAMESPACE, "https://idp.example/zero", none, some 0⟩ ∧
    Provider.from_xml twoServiceDoc = .error "node has more than one child" ∧
    parse_xml twoServiceDoc = .error "node has more than one child" ∧
    Provider.from_xml oneServiceDoc =
      .ok ⟨⟨OPENID_AUTH_NAMESPACE, "https://idp.example/zero", none,
            some 0⟩⟩ :=
  ⟨rfl, rfl, rfl, rfl, rfl⟩

/-! ## URLs and `make_auth_req_url`, `src/openid/params.rs`

`reqwest::Url` is an external library; a minimal fragment of its parser is
modelled here, sufficient for absolute URLs of the shape
`scheme://host[:port][/path]` (no query or userinfo, which never occur in the
inputs this code passes it). -/

/-- Split at the first occurrence of a (nonempty) separator sequence. -/
def splitOnceSeq (sep : List Char) : List Char → Option (List Char × List Char)
  | [] => none
  | c :: cs =>
    if sep.isPrefixOf (c :: cs) then some ([], (c :: cs).drop sep.length)
    else
      match splitOnceSeq sep cs with
      | none => none
      | some (a, b) => some (c :: a, b)

/-- The parts of a parsed absolute URL that this code inspects. -/
structure Url where
  scheme : String
  host : String
  port : Option Nat
  path : String
  query : List (String × String)
deriving DecidableEq

/-- `Url::host_str`. -/
def Url.host_str (u : Url) : Option String :=
  if u.host = "" then none else some u.host

/-- Modelled at the library boundary: `reqwest::Url::parse` for
`scheme://host[:port][/path]`. -/
def parseUrl (s : String) : Option Url :=
  match splitOnceSeq "://".toList s.toList with
  | none => none
  | some (schemeCs, rest) =>
    if schemeCs = [] then none
    else
      let hostPortPath : List Char × List Char :=
        match splitOnce '/' rest with
        | none => (rest, [])
        | some (hp, p) => (hp, '/' :: p)
      match splitOnce ':' hostPortPath.1 with
      | none =>
        if hostPortPath.1 = [] then none
        else some ⟨⟨schemeCs⟩, ⟨hostPortPath.1⟩, none, ⟨hostPortPath.2⟩, []⟩
      | some (hostCs, portCs) =>
        if hostCs = [] then none
        else
          match portCs with
          | [] => none
          | _ :: _ =>
            match digitsVal portCs 0 with
            | none => none
            | some p =>
              if p < 65536 then
                some ⟨⟨schemeCs⟩, ⟨hostCs⟩, some p, ⟨hostPortPath.2⟩, []⟩
              else none

/-- `Url::as_str` (re-rendering; reqwest normalises an empty path to `/`). -/
def Url.render (u : Url) : String :=
  u.scheme ++ "://" ++ u.host ++
    (match u.port with
     | none => ""
     | some p => ":" ++ toString p) ++
    (if u.path = "" then "/" else u.path)

/-- `make_auth_req_params`: the four static parameters plus `realm` and
`return_to`. -/
def make_auth_req_params (realm return_to : String) :
    List (String × String) :=
  [(OPENID_MODE, OPENID_MODE_CHECKID_SETUP),
   (OPENID_NAMESPACE, OPENID_AUTH_NAMESPACE),
   (OPENID_IDENTITY, OPENID_IDENTIFIER_SELECT),
   (OPENID_CLAIMED_ID, OPENID_IDENTIFIER_SELECT),
   (OPENID_REALM, realm),
   (OPENID_RETURN_TO, return_to)]

/-- `make_auth_req_url` of `src/openid/params.rs`.  Note the source binds
`realm_host` from `return_to.host_str()` — not from `realm` — which this
embedding reproduces faithfully. -/
def make_auth_req_url (p : Provider) (realm return_to : String) :
    Except String Url :=
  match parseUrl return_to with
  | none => .error "cannot parse return_to url"
  | some returnToUrl =>
    match parseUrl realm with
    | none => .error "cannot parse realm url"
    | some realmUrl =>
      match returnToUrl.host_str with
      | none => .error "return_to url is missing host part"
      | some return_to_host =>
        match returnToUrl.host_str with
        | none => .error "realm url is missing host part"
        | some realm_host =>
          if return_to_host ≠ realm_host then
            .error "host part of realm and return_to urls do not match"
          else if returnToUrl.scheme ≠ realmUrl.scheme then
            .error "scheme part of realm and return_to urls do not match"
          else
            match parseUrl p.service.endpoint with
            | none =>
              .error "cannot parse provider endpoint with query params into a url"
            | some endpointUrl =>
              .ok { endpointUrl with
                    query := endpointUrl.query ++
                      make_auth_req_params realmUrl.render
                        returnToUrl.render }

/-! ## Claim theorem: realm/return_to agreement (C9) -/

/-- C9: the claim says `make_auth_req_url` errors whenever realm and
return_to do not share scheme and host; but because the source reads the
"realm host" out of `return_to`, the host comparison always compares
`return_to`'s host with itself, so a realm on a different host is accepted
(the scheme check, by contrast, does fire). -/
theorem make_auth_req_url_host_mismatch_accepted :
    (parseUrl "http://evil.example").map Url.host = some "evil.example" ∧
    (parseUrl "http://localhost:8080/api/auth/steam/callback").map Url.host =
      some "localhost" ∧
    (make_auth_req_url Provider.steam "http://evil.example"
      "http://localhost:8080/api/auth/steam/callback").isOk = true ∧
    make_auth_req_url Provider.steam "https://localhost/x"
      "http://localhost:8080/api/auth/steam/callback" =
      .error "scheme part of realm and return_to urls do not match" :=
  ⟨rfl, rfl, rfl, rfl⟩

/-! ## The callback handler, `src/api/auth/steam.rs`

`return_steam_auth` modelled as a pure step over the session state, the nonce
registry and the parsed callback query; the external effects — the clock, the
network re-verification outcome, and the steam id parse of the external
`SteamId::from_str` (numeric u64, like `parseU64`) — are passed in.  The
profile fetch after authentication does not affect state and is omitted. -/

/-- The session's `SteamAuthState`. -/
inductive SteamAuthState where
  | redirected (nonce : String)
  | authenticated (id : Nat)
deriving DecidableEq

/-- The handler outcomes this code can produce. -/
inductive HandlerResponse where
  | temporaryRedirect (location : String)
  | badRequest
  | okJson (id : Nat)
deriving DecidableEq

/-- The result of one callback-request step. -/
structure CallbackResult where
  response : HandlerResponse
  session : Option SteamAuthState
  nonces : NonceSet
  networkCalled : Bool

/-- `return_steam_auth`: the full control flow of the callback handler. -/
def return_steam_auth (session : Option SteamAuthState) (nonces : NonceSet)
    (custom_nonce : String) (assertion : PositiveAssertion) (p : Provider)
    (now : Int) (verify : Except String VerifyResponse) : CallbackResult :=
  match session with
  | none =>
    ⟨.temporaryRedirect "/api/auth/steam/login", session, nonces, false⟩
  | some (.authenticated _) =>
    ⟨.temporaryRedirect "/api/health/cookies", session, nonces, false⟩
  | some (.redirected state_nonce) =>
    if custom_nonce ≠ state_nonce then
      ⟨.badRequest, session, nonces, false⟩
    else
      match nonces.validate_and_remove custom_nonce now with
      | (.error _, nonces1) => ⟨.badRequest, session, nonces1, false⟩
      | (.ok _, nonces1) =>
        match stripPfx STEAM_IDENTITY_PFX assertion.claimed_id with
        | none => ⟨.badRequest, session, nonces1, false⟩
        | some idStr =>
          match parseU64 idStr with
          | none => ⟨.badRequest, session, nonces1, false⟩
          | some steam_id =>
            match validate_positive_assertion assertion p now verify with
            | (network, .error _) =>
              ⟨.badRequest, session, nonces1, network⟩
            | (network, .ok r) =>
              if !r.is_valid then
                ⟨.badRequest, session, nonces1, network⟩
              else
                ⟨.okJson steam_id, some (.authenticated steam_id),
                 nonces1, network⟩

/-! ## Claim theorem: nonce-mismatch callback (C7) -/

/-- C7: a callback arriving in `Redirected(n)` whose query `custom_nonce`
differs from `n` is rejected with the 400-class response before the nonce is
consumed and before any network call: the session stays `Redirected(n)`, the
registry is untouched, and the entry for `n` is still present. -/
theorem callback_nonce_mismatch_rejected (nonces : NonceSet) (n q : String)
    (a : PositiveAssertion) (p : Provider) (now : Int)
    (verify : Except String VerifyResponse) (hne : q ≠ n) :
    (return_steam_auth (some (.redirected n)) nonces q a p now
      verify).response = .badRequest ∧
    (return_steam_auth (some (.redirected n)) nonces q a p now
      verify).session = some (.redirected n) ∧
    (return_steam_auth (some (.redirected n)) nonces q a p now
      verify).nonces = nonces ∧
    (return_steam_auth (some (.redirected n)) nonces q a p now
      verify).nonces.inner n = nonces.inner n ∧
    (return_steam_auth (some (.redirected n)) nonces q a p now
      verify).networkCalled = false := by
  simp [return_steam_auth, hne]

/-- Witness for C7: a concrete mismatching callback leaves the concrete
registry entry in place. -/
theorem callback_nonce_mismatch_rejected_witness :
    (return_steam_auth (some (.redirected "N"))
      ⟨fun k => if k = "N" then some ⟨0⟩ else none⟩ "M" (sampleAssertion 1 0)
      Provider.steam 0 (.ok ⟨OPENID_AUTH_NAMESPACE, true⟩)).response =
      .badRequest ∧
    (return_steam_auth (some (.redirected "N"))
      ⟨fun k => if k = "N" then some ⟨0⟩ else none⟩ "M" (sampleAssertion 1 0)
      Provider.steam 0 (.ok ⟨OPENID_AUTH_NAMESPACE, true⟩)).session =
      some (.redirected "N") ∧
    (return_steam_auth (some (.redirected "N"))
      ⟨fun k => if k = "N" then some ⟨0⟩ else none⟩ "M" (sampleAssertion 1 0)
      Provider.steam 0 (.ok ⟨OPENID_AUTH_NAMESPACE, true⟩)).nonces.inner
      "N" = some ⟨0⟩ ∧
    (return_steam_auth (some (.redirected "N"))
      ⟨fun k => if k = "N" then some ⟨0⟩ else none⟩ "M" (sampleAssertion 1 0)
      Provider.steam 0 (.ok ⟨OPENID_AUTH_NAMESPACE, true⟩)).networkCalled =
      false := by
  have h := callback_nonce_mismatch_rejected
    ⟨fun k => if k = "N" then some ⟨0⟩ else none⟩ "N" "M"
    (sampleAssertion 1 0) Provider.steam 0
    (.ok ⟨OPENID_AUTH_NAMESPACE, true⟩) (by decide)
  refine ⟨h.1, h.2.1, ?_, h.2.2.2.2⟩
  rw [h.2.2.2.1]
  simp

end OpenId
